/-
  Verification of the VT168 PPU emulator (src/src/ppu.cpp) against its
  natural-language specification.

  The C++ source is shallowly embedded: machine integers become Nat with
  explicit truncation (uint8_t reads are taken mod 256, the 16-bit SPRAM and
  VRAM window addresses never overflow because they are rebuilt from masked
  register bytes), byte arrays become total functions Nat to Nat whose reads
  are masked mod 256 at the point of use, and signed C ints that can go
  negative (blit destination coordinates) become Int.  Every definition is
  translated from the source; definitions whose names end in _spec or
  _amended restate the specification text and are compared with the
  source-derived definitions by theorem.
-/
import Mathlib

namespace VTxx

/-! ### Bit-arithmetic helpers

These translate the C bit operations (masking, shifting, or-composition of
disjoint fields) into ordinary arithmetic so that omega can finish proofs. -/

lemma and_7 (x : Nat) : x &&& 7 = x % 8 := by
  have h := Nat.and_pow_two_sub_one_eq_mod x 3
  norm_num at h
  exact h

lemma and_31 (x : Nat) : x &&& 31 = x % 32 := by
  have h := Nat.and_pow_two_sub_one_eq_mod x 5
  norm_num at h
  exact h

lemma and_255 (x : Nat) : x &&& 255 = x % 256 := by
  have h := Nat.and_pow_two_sub_one_eq_mod x 8
  norm_num at h
  exact h

lemma and_65535 (x : Nat) : x &&& 65535 = x % 65536 := by
  have h := Nat.and_pow_two_sub_one_eq_mod x 16
  norm_num at h
  exact h

lemma or_eq_add_of_lt {m b : Nat} (k : Nat) (hm : m % 2 ^ k = 0) (hb : b < 2 ^ k) :
    m ||| b = m + b := by
  have hd : 2 ^ k * (m / 2 ^ k) = m := Nat.mul_div_cancel' (Nat.dvd_of_mod_eq_zero hm)
  have h := Nat.mul_add_lt_is_or hb (m / 2 ^ k)
  rw [hd] at h
  exact h.symm

lemma shl_or_eq_add (u v k : Nat) (hv : v < 2 ^ k) : (u <<< k) ||| v = u * 2 ^ k + v := by
  have hm : (u <<< k) % 2 ^ k = 0 := by
    rw [Nat.shiftLeft_eq]
    exact Nat.mul_mod_left u (2 ^ k)
  calc (u <<< k) ||| v = (u <<< k) + v := or_eq_add_of_lt k hm hv
    _ = u * 2 ^ k + v := by rw [Nat.shiftLeft_eq]

lemma and_fff8 (x : Nat) (hx : x < 65536) : x &&& 0xFFF8 = x - x % 8 := by
  have hsplit : x &&& 65535 = (x &&& 0xFFF8) ||| (x &&& 7) := by
    have h : (0xFFF8 : Nat) ||| 7 = 65535 := by decide
    rw [← h, Nat.and_or_distrib_left]
  have h1 : x &&& 65535 = x := by
    rw [and_65535]
    exact Nat.mod_eq_of_lt hx
  have h2 : (x &&& 0xFFF8) % 8 = 0 := by
    rw [← and_7, Nat.and_assoc]
    have hc : (0xFFF8 : Nat) &&& 7 = 0 := by decide
    rw [hc, Nat.and_zero]
  have h3 : (x &&& 0xFFF8) ||| (x &&& 7) = (x &&& 0xFFF8) + (x &&& 7) := by
    have h8 : (2 : Nat) ^ 3 = 8 := by norm_num
    refine or_eq_add_of_lt 3 ?_ ?_
    · rw [h8]; exact h2
    · rw [h8, and_7]; exact Nat.mod_lt x (by norm_num)
  have h4 := and_7 x
  have h5 : x % 8 ≤ x := Nat.mod_le x 8
  omega

lemma and_hi16_eq_zero {b : Nat} (hb : b < 65536) : b &&& 0xFFFF0000 = 0 := by
  apply Nat.eq_of_testBit_eq
  intro i
  simp only [Nat.testBit_and, Nat.zero_testBit]
  rcases Nat.lt_or_ge i 16 with hi | hi
  · have hm : (0xFFFF0000 : Nat) = 0xFFFF <<< 16 := by decide
    rw [hm, Nat.testBit_shiftLeft]
    simp [Nat.not_le.mpr hi]
  · have hb2 : b < 2 ^ i := by
      calc b < 65536 := hb
        _ = 2 ^ 16 := by norm_num
        _ ≤ 2 ^ i := Nat.pow_le_pow_right (by norm_num) hi
    rw [Nat.testBit_lt_two_pow hb2]
    simp

lemma shl16_and_lo_eq_zero (x : Nat) : (x <<< 16) &&& 65535 = 0 := by
  rw [and_65535, Nat.shiftLeft_eq]
  have h : (2 : Nat) ^ 16 = 65536 := by norm_num
  rw [h]
  exact Nat.mul_mod_left x 65536

/-! ### Pixel formats and the character decoder

Embedding of the ColourMode enum, and of get_char_data (src/src/ppu.cpp,
lines 129 to 165).  The external read_mem_physical of the memory fabric is
a parameter mem : Nat to Nat; it returns bytes, hence the mod 256 at use. -/

inductive ColourMode
  | IDX_4
  | IDX_16
  | IDX_64
  | IDX_256
  | ARGB1555
deriving DecidableEq

/-- Bits per pixel of each colour mode, from the switch in get_char_data. -/
def bpp : ColourMode → Nat
  | ColourMode.ARGB1555 => 16
  | ColourMode.IDX_256 => 8
  | ColourMode.IDX_64 => 6
  | ColourMode.IDX_16 => 4
  | ColourMode.IDX_4 => 2

/-- Byte spacing between character vectors, translated line by line from
get_char_data: texel count is 16*16 in bitmap or ARGB1555 mode and w*h
otherwise; then the source multiplies by 8 (not by bpp) when bpp is 16,
by bpp otherwise, and divides by 8. -/
def char_spacing (fmt : ColourMode) (bmp : Bool) (w h : Nat) : Nat :=
  let spacing0 := if bmp = true ∨ fmt = ColourMode.ARGB1555 then 16 * 16 else w * h
  let spacing1 := if bpp fmt = 16 then spacing0 * 8 else spacing0 * bpp fmt
  spacing1 / 8

/-- Physical fetch base of get_char_data: pa = (seg << 13) + vector * spacing. -/
def char_pa (seg vector w h : Nat) (fmt : ColourMode) (bmp : Bool) : Nat :=
  (seg <<< 13) + vector * char_spacing fmt bmp w h

/-- Number of bytes read by get_char_data: len = (w * h * bpp) / 8. -/
def char_len (w h : Nat) (fmt : ColourMode) : Nat := w * h * bpp fmt / 8

/-- Embedding of get_char_data: the list of bytes copied into buf, read from
the memory fabric at consecutive physical addresses starting at char_pa. -/
def get_char_data (mem : Nat → Nat) (seg vector w h : Nat) (fmt : ColourMode)
    (bmp : Bool) : List Nat :=
  (List.range (char_len w h fmt)).map
    (fun i => mem (char_pa seg vector w h fmt bmp + i) % 256)

/-- Spacing as the amended C2 claim states it: 16*16 texels scaled by bpp/8
for bitmap-mode indexed formats, 256 bytes for the 16-bpp ARGB1555 format
(the source scales the 16-bpp case by 8/8 = 1 byte per texel), and w*h
texels scaled by bpp/8 otherwise. -/
def char_spacing_amended (fmt : ColourMode) (bmp : Bool) (w h : Nat) : Nat :=
  if bmp = true ∨ fmt = ColourMode.ARGB1555 then
    if fmt = ColourMode.ARGB1555 then 256 else 16 * 16 * bpp fmt / 8
  else w * h * bpp fmt / 8

/-! ### The blend function of the compositor

Embedding of blend_argb1555 (src/src/ppu.cpp, lines 425 to 435), kept
exactly as written: the green channel of b is masked with 0x1 and the blue
channels are taken at bit 11 although the result is placed at bit 10. -/

def blend_argb1555 (a b : Nat) : Nat :=
  if a &&& 0x8000 ≠ 0 then b
  else if b &&& 0x8000 ≠ 0 then a
  else
    ((((a &&& 0x1F) + (b &&& 0x1F)) / 2) &&& 0x1F) |||
    ((((((a >>> 5) &&& 0x1F) + ((b >>> 5) &&& 0x1)) / 2) &&& 0x1F) <<< 5) |||
    ((((((a >>> 11) &&& 0x1F) + ((b >>> 11) &&& 0x1F)) / 2) &&& 0x1F) <<< 10)

/-! ### Background tile addressing

Embedding of get_tile_addr (src/src/ppu.cpp, lines 229 to 309).  The source
returns a pair (address, mapped); the branches that hit assert(false) are
modelled as none.  tx and ty are nonnegative in every call (the renderer
computes them as (x - x0) / tile_width with x at least x0), so Nat is
faithful, and the C percent operator on nonnegative ints is Nat.mod. -/

inductive BkgScrollMode
  | FIX
  | H
  | V
  | P4
deriving DecidableEq

def get_tile_addr (tx ty : Nat) (y8 x8 : Bool) (size : Nat) (bmp : Bool)
    (layer : Nat) (scrl : BkgScrollMode) : Option (Nat × Bool) :=
  if size = 8 then
    let offset := ((tx % 32) + 32 * (ty % 32)) * 2
    match scrl with
    | BkgScrollMode.FIX =>
        some ((if y8 = false ∧ x8 = false then 0x000 else 0x800) + offset,
          decide (tx < 32 ∧ ty < 32))
    | BkgScrollMode.H =>
        some ((if (decide (tx > 32)) != x8 then 0x800 else 0x000) + offset,
          decide (ty < 32))
    | BkgScrollMode.V =>
        some ((if (decide (ty > 32)) != y8 then 0x800 else 0x000) + offset,
          decide (tx < 32))
    | BkgScrollMode.P4 => none
  else if size = 16 then
    let offset := ((tx % 16) + 16 * (ty % 16)) * 2
    match scrl with
    | BkgScrollMode.FIX =>
        some (((layer <<< 11) ||| ((if y8 then 1 else 0) <<< 10) |||
            ((if x8 then 1 else 0) <<< 9)) + offset,
          decide (tx < 16 ∧ ty < 16))
    | BkgScrollMode.H =>
        some (((if (decide (tx > 16)) != x8 then 0x200 else 0x000) |||
            (layer <<< 11)) + offset,
          decide (ty < 16))
    | BkgScrollMode.V =>
        some (((if (decide (ty > 16)) != y8 then 0x200 else 0x000) |||
            (layer <<< 11)) + offset,
          decide (tx < 16))
    | BkgScrollMode.P4 =>
        some ((((if (decide (tx > 16)) != x8 then 0x200 else 0x000) |||
            (if (decide (ty > 16)) != y8 then 0x400 else 0x000)) |||
            (layer <<< 11)) + offset,
          true)
  else if bmp then
    if layer = 0 then
      let offset := (ty % 256) * 2
      match scrl with
      | BkgScrollMode.FIX =>
          some (((layer <<< 11) ||| ((if y8 then 1 else 0) <<< 10) |||
              ((if x8 then 1 else 0) <<< 9)) + offset,
            decide (tx < 1 ∧ ty < 256))
      | BkgScrollMode.H =>
          some ((if (decide (tx > 1)) != x8 then 0x200 else 0x000) + offset,
            decide (ty < 256))
      | BkgScrollMode.V =>
          some ((if (decide (ty > 256)) != y8 then 0x200 else 0x000) + offset,
            decide (tx < 1))
      | BkgScrollMode.P4 =>
          some (((if (decide (tx > 1)) != x8 then 0x200 else 0x000) |||
              (if (decide (ty > 256)) != y8 then 0x400 else 0x000)) + offset,
            true)
    else none
  else none

/-- Tile address for 8-pixel tiles as the section 4.4 table of the
specification states it (C7): offset ((tx mod 32) + 32 (ty mod 32)) * 2; in
FIX mode base 0x000 only when x8 = 0 and y8 = 0, mapped iff tx < 32 and
ty < 32; in H mode base 0x800 exactly when (tx > 32) xor x8, mapped iff
ty < 32; V symmetric in ty and y8, mapped iff tx < 32; 4P unsupported. -/
def tile_addr_spec8 (tx ty : Nat) (y8 x8 : Bool) (scrl : BkgScrollMode) :
    Option (Nat × Bool) :=
  let offset := ((tx % 32) + 32 * (ty % 32)) * 2
  match scrl with
  | BkgScrollMode.FIX =>
      some ((if x8 = false ∧ y8 = false then 0x000 else 0x800) + offset,
        decide (tx < 32 ∧ ty < 32))
  | BkgScrollMode.H =>
      some ((if xor (decide (tx > 32)) x8 then 0x800 else 0x000) + offset,
        decide (ty < 32))
  | BkgScrollMode.V =>
      some ((if xor (decide (ty > 32)) y8 then 0x800 else 0x000) + offset,
        decide (tx < 32))
  | BkgScrollMode.P4 => none

/-- Tile address for 16-pixel tiles as the section 4.4 table of the
specification states it (C7): offset stride 16, every base ORs layer << 11,
the H-mode page bit is 0x200 exactly when (tx > 16) xor x8 with mapped iff
ty < 16 (V symmetric), FIX base ORs (y8 << 10) and (x8 << 9) with mapped iff
tx < 16 and ty < 16, and 4P ORs both conditional page bits 0x200 and 0x400
and is always mapped. -/
def tile_addr_spec16 (tx ty : Nat) (y8 x8 : Bool) (layer : Nat)
    (scrl : BkgScrollMode) : Option (Nat × Bool) :=
  let offset := ((tx % 16) + 16 * (ty % 16)) * 2
  match scrl with
  | BkgScrollMode.FIX =>
      some (((layer <<< 11) ||| ((if y8 then 1 else 0) <<< 10) |||
          ((if x8 then 1 else 0) <<< 9)) + offset,
        decide (tx < 16 ∧ ty < 16))
  | BkgScrollMode.H =>
      some (((layer <<< 11) ||| (if xor (decide (tx > 16)) x8 then 0x200 else 0x000)) + offset,
        decide (ty < 16))
  | BkgScrollMode.V =>
      some (((layer <<< 11) ||| (if xor (decide (ty > 16)) y8 then 0x200 else 0x000)) + offset,
        decide (tx < 16))
  | BkgScrollMode.P4 =>
      some (((layer <<< 11) ||| (if xor (decide (tx > 16)) x8 then 0x200 else 0x000) |||
          (if xor (decide (ty > 16)) y8 then 0x400 else 0x000)) + offset,
        true)

/-! ### The blitter

Embedding of vt_blit (src/src/ppu.cpp, lines 38 to 122).  The source walks
the texels row by row carrying a byte pointer and a bit offset into the
packed source.  The two uint16_t sample variables argb0 and argb1 are
declared uninitialized in every iteration; on the path where the format is
indexed, the decoded index is nonzero and a palette pointer is null, the
source reads them uninitialized.  That indeterminate content is modelled by
the explicit junk parameters (truncated mod 2^16 like the uint16_t they
inhabit); every other path assigns both samples before use and ignores the
junk. -/

/-- Little-endian 16-bit word from two bytes: (hi << 8) or lo, as in the
source reads (p[1] << 8) | p[0]. -/
def word16 (lo hi : Nat) : Nat := ((hi % 256) <<< 8) ||| (lo % 256)

/-- Palette lookup: (pal[2 raw + 1] << 8) or pal[2 raw]. -/
def pal_sample (f : Nat → Nat) (raw : Nat) : Nat :=
  word16 (f (2 * raw)) (f (2 * raw + 1))

/-- Index decoding of one texel for the packed indexed formats, returning
(raw, next byte offset, next bit offset), translated case by case from the
vt_blit source.  The wildcard row of the IDX_64 match is the branch where
the source asserts false; it is unreachable from bit offset 0 because the
reachable offsets are 0, 2, 4 and 6. -/
def decode_idx (fmt : ColourMode) (src : Nat → Nat) (p bit : Nat) :
    Nat × Nat × Nat :=
  match fmt with
  | ColourMode.IDX_4 =>
      (((src p % 256) >>> bit) &&& 0x03,
       if bit + 2 ≥ 8 then p + 1 else p,
       if bit + 2 ≥ 8 then 0 else bit + 2)
  | ColourMode.IDX_16 =>
      (((src p % 256) >>> bit) &&& 0x0F,
       if bit + 4 ≥ 8 then p + 1 else p,
       if bit + 4 ≥ 8 then 0 else bit + 4)
  | ColourMode.IDX_64 =>
      match bit with
      | 0 => ((src p % 256) &&& 0x3F, p, 6)
      | 2 => (((src p % 256) >>> 2) &&& 0x3F, p + 1, 0)
      | 4 => ((((src p % 256) &&& 0xF0) >>> 4) |||
              (((src (p + 1) % 256) &&& 0x03) <<< 4), p + 1, 2)
      | 6 => ((((src p % 256) &&& 0xC0) >>> 6) |||
              (((src (p + 1) % 256) &&& 0x0F) <<< 2), p + 1, 4)
      | _ => (0, p, bit)
  | ColourMode.IDX_256 => (src p % 256, p + 1, bit)
  | ColourMode.ARGB1555 => (0, p, bit)

/-- Computation of the two TRGB1555 samples of one texel, returning
(argb0, argb1, next byte offset, next bit offset).  In ARGB1555 mode both
samples are the source word; in indexed mode index 0 yields 0x8000 in both
banks, and otherwise each sample comes from its palette when provided and
is the uninitialized junk when the palette pointer is null. -/
def blit_samples (fmt : ColourMode) (src : Nat → Nat)
    (pal0 pal1 : Option (Nat → Nat)) (j0 j1 p bit : Nat) :
    Nat × Nat × Nat × Nat :=
  if fmt = ColourMode.ARGB1555 then
    (word16 (src p) (src (p + 1)), word16 (src p) (src (p + 1)), p + 2, bit)
  else
    let d := decode_idx fmt src p bit
    if d.1 = 0 then (0x8000, 0x8000, d.2.1, d.2.2)
    else
      ((match pal0 with
        | some f => pal_sample f d.1
        | none => j0 % 65536),
       (match pal1 with
        | some f => pal_sample f d.1
        | none => j1 % 65536),
       d.2.1, d.2.2)

/-- Destination update of one texel: skip when out of the layer bounds;
otherwise a solid (bit 15 clear) sample 0 overwrites the low 16 bits of the
cell and a solid sample 1 overwrites the high 16 bits, each preserving the
other half, exactly as the two guarded stores in vt_blit. -/
def blit_write (dst : Int → Nat) (dw dh stride : Nat) (dx dy : Int)
    (argb0 argb1 : Nat) : Int → Nat :=
  if 0 ≤ dx ∧ dx < (dw : Int) ∧ 0 ≤ dy ∧ dy < (dh : Int) then
    let i : Int := dy * (stride : Int) + dx
    let c1 := if argb0 &&& 0x8000 = 0 then (dst i &&& 0xFFFF0000) ||| argb0 else dst i
    let c2 := if argb1 &&& 0x8000 = 0 then (c1 &&& 0xFFFF) ||| (argb1 <<< 16) else c1
    fun c => if c = i then c2 else dst c
  else dst

/-- State threaded through the texel loop of vt_blit: source byte offset,
source bit offset, and the destination layer cells. -/
structure BlitState where
  p : Nat
  bit : Nat
  dst : Int → Nat

/-- Body of the inner loop of vt_blit for one texel. -/
def blit_texel (fmt : ColourMode) (src : Nat → Nat)
    (pal0 pal1 : Option (Nat → Nat)) (dw dh stride : Nat) (dx dy : Int)
    (j0 j1 : Nat) (st : BlitState) : BlitState :=
  let q := blit_samples fmt src pal0 pal1 j0 j1 st.p st.bit
  BlitState.mk q.2.2.1 q.2.2.2 (blit_write st.dst dw dh stride dx dy q.1 q.2.1)

/-- Texel coordinates (sy, sx) in the order the two nested loops of vt_blit
visit them. -/
def texelList (sh sw : Nat) : List (Nat × Nat) :=
  (List.range sh).flatMap (fun sy => (List.range sw).map (fun sx => (sy, sx)))

/-- Embedding of vt_blit: fold the texel step over all source texels,
starting from byte offset 0, bit offset 0 and the given destination. -/
def vt_blit (src_width src_height : Nat) (src : Nat → Nat)
    (dst_width dst_height dst_stride : Nat) (dst_x dst_y : Int)
    (dst : Int → Nat) (fmt : ColourMode) (pal0 pal1 : Option (Nat → Nat))
    (junk : Nat → Nat → Nat × Nat) : BlitState :=
  (texelList src_height src_width).foldl
    (fun st sc =>
      blit_texel fmt src pal0 pal1 dst_width dst_height dst_stride
        (dst_x + (sc.2 : Int)) (dst_y + (sc.1 : Int))
        (junk sc.1 sc.2).1 (junk sc.1 sc.2).2 st)
    (BlitState.mk 0 0 dst)

/-! ### The compositor

Embedding of the per-pixel body of merge_layers (src/src/ppu.cpp, lines
459 to 488).  A pixel of a layer is a 32-bit cell holding two TRGB1555
samples, the low word for palette bank 0 and the high word for palette
bank 1; cells is the function from layer index to that cell at the pixel
under consideration. -/

/-- One step of the layer scan of merge_layers: a solid low sample
overwrites pal0 and, independently, a solid high sample overwrites pal1. -/
def scan_step (pal : Nat × Nat) (raw : Nat) : Nat × Nat :=
  (if raw &&& 0x8000 = 0 then raw &&& 0xFFFF else pal.1,
   if raw &&& 0x80000000 = 0 then (raw >>> 16) &&& 0xFFFF else pal.2)

/-- The scan of merge_layers over layers 3, 2, 1, 0 in that order, starting
from (0x8000, 0x8000). -/
def merge_scan (cells : Nat → Nat) : Nat × Nat :=
  scan_step (scan_step (scan_step (scan_step (0x8000, 0x8000) (cells 3))
    (cells 2)) (cells 1)) (cells 0)

/-- Final colour selection of merge_layers for one pixel, translated from
the three sequential overwrites of res in the source. -/
def merge_layers_pixel (cells : Nat → Nat) (output_pal0 output_pal1 blend_pal : Bool) :
    Nat :=
  let pal := merge_scan cells
  let res1 := if blend_pal && output_pal0 && output_pal1 then
      blend_argb1555 pal.1 pal.2 else 0x8000
  let res2 := if output_pal0 && decide (pal.1 &&& 0x8000 = 0) then pal.1 else res1
  if output_pal1 && decide (pal.2 &&& 0x8000 = 0) then pal.2 else res2

/-- Bank-0 result of the scan as the C8 claim states it: scanning keeps the
last solid sample found going from layer 3 down to layer 0, which is the
first solid bank-0 sample in the order 0, 1, 2, 3 (layer 0 topmost), and
0x8000 when no layer is solid in bank 0. -/
def top_solid0 (cells : Nat → Nat) : Nat :=
  if cells 0 &&& 0x8000 = 0 then cells 0 &&& 0xFFFF
  else if cells 1 &&& 0x8000 = 0 then cells 1 &&& 0xFFFF
  else if cells 2 &&& 0x8000 = 0 then cells 2 &&& 0xFFFF
  else if cells 3 &&& 0x8000 = 0 then cells 3 &&& 0xFFFF
  else 0x8000

/-- Bank-1 counterpart of top_solid0, testing bit 31 of the cell and taking
the high 16 bits. -/
def top_solid1 (cells : Nat → Nat) : Nat :=
  if cells 0 &&& 0x80000000 = 0 then (cells 0 >>> 16) &&& 0xFFFF
  else if cells 1 &&& 0x80000000 = 0 then (cells 1 >>> 16) &&& 0xFFFF
  else if cells 2 &&& 0x80000000 = 0 then (cells 2 >>> 16) &&& 0xFFFF
  else if cells 3 &&& 0x80000000 = 0 then (cells 3 >>> 16) &&& 0xFFFF
  else 0x8000

/-- Final colour cascade as the C8 claim states it: pal1 if output_pal1 is
set and pal1 is solid, otherwise pal0 if output_pal0 is set and pal0 is
solid, otherwise the blend when blend_pal, output_pal0 and output_pal1 are
all set, otherwise transparent 0x8000. -/
def merge_res_spec (p0 p1 : Nat) (output_pal0 output_pal1 blend_pal : Bool) : Nat :=
  if output_pal1 && decide (p1 &&& 0x8000 = 0) then p1
  else if output_pal0 && decide (p0 &&& 0x8000 = 0) then p0
  else if blend_pal && output_pal0 && output_pal1 then blend_argb1555 p0 p1
  else 0x8000

/-! ### Register file, windowed memory ports and the frame pump

Embedding of ppu_read, ppu_write (src/src/ppu.cpp, lines 599 to 655),
ppu_tick and ppu_is_vblank (lines 544 to 563).  The register file, VRAM and
SPRAM are byte arrays; they are modelled as total functions whose reads are
masked mod 256, which is exactly the uint8_t cell semantics, and every
store writes the datum mod 256.  The ticks counter is a module-level
uint32_t that ppu_tick alone mutates; it resets long before 32-bit
overflow, so Nat is faithful. -/

structure PpuState where
  regs : Nat → Nat
  vram : Nat → Nat
  spram : Nat → Nat
  ticks : Nat

/-- Pointwise update of a byte array. -/
def updf (f : Nat → Nat) (i v : Nat) : Nat → Nat :=
  fun j => if j = i then v else f j

/-- Byte value of a register cell (uint8_t semantics). -/
def reg8 (s : PpuState) (a : Nat) : Nat := s.regs a % 256

/-- SPRAM window address: ((regs[0x02] & 0x07) << 8) | regs[0x03]. -/
def spram_addr (s : PpuState) : Nat := ((reg8 s 0x02 &&& 0x07) <<< 8) ||| reg8 s 0x03

/-- VRAM window address: ((regs[0x06] & 0x1F) << 8) | regs[0x05]. -/
def vram_addr (s : PpuState) : Nat := ((reg8 s 0x06 &&& 0x1F) <<< 8) ||| reg8 s 0x05

/-- Frame pump constants, PAL defaults from the source. -/
def vblank_start : Nat := 0

def vblank_len : Nat := 22036

def v_total : Nat := 106392

/-- Embedding of ppu_is_vblank: ticks >= vblank_start && ticks < vblank_len. -/
def ppu_is_vblank (ticks : Nat) : Bool :=
  decide (ticks ≥ vblank_start) && decide (ticks < vblank_len)

/-- Effect of ppu_tick on the ticks counter: increment, and reset to 0 when
the incremented value reaches v_total.  The render signal raised at
ticks == vblank_len notifies the render thread and does not change ticks. -/
def ppu_tick (ticks : Nat) : Nat :=
  if ticks + 1 ≥ v_total then 0 else ticks + 1

/-- Embedding of ppu_read.  The SPRAM and VRAM data ports return the byte
at the windowed address without touching the address registers (the source
function mutates nothing), the status register returns the VBLANK bit in
bit 7, and every other address returns the plain register byte. -/
def ppu_read (s : PpuState) (address : Nat) : Nat :=
  if address = 0x04 then s.spram (spram_addr s)
  else if address = 0x07 then s.vram (vram_addr s)
  else if address = 0x01 then (if ppu_is_vblank s.ticks then 1 else 0) <<< 7
  else reg8 s address

/-- Embedding of ppu_write.  The SPRAM data port stores at the windowed
address, increments it, rounds it up to the next multiple of 8 when the low
3 bits of the incremented address are at least 6 (the source does
addr &= ~0x07 on the 16-bit address, hence the 0xFFF8 mask, then adds 8)
and writes the result back into registers 0x02 and 0x03; the VRAM data port
stores at its windowed address and writes the incremented address back into
registers 0x06 and 0x05; every other address is a plain register store. -/
def ppu_write (s : PpuState) (address data : Nat) : PpuState :=
  if address = 0x04 then
    let a := spram_addr s
    let a1 := a + 1
    let a2 := if a1 &&& 0x07 ≥ 6 then (a1 &&& 0xFFF8) + 8 else a1
    { s with
      spram := updf s.spram a (data % 256),
      regs := updf (updf s.regs 0x02 ((a2 >>> 8) &&& 0x07)) 0x03 (a2 &&& 0xFF) }
  else if address = 0x07 then
    let a := vram_addr s
    let a1 := a + 1
    { s with
      vram := updf s.vram a (data % 256),
      regs := updf (updf s.regs 0x06 ((a1 >>> 8) &&& 0x1F)) 0x05 (a1 &&& 0xFF) }
  else { s with regs := updf s.regs address (data % 256) }

/-- Sequence of writes to one port, as N consecutive calls of ppu_write. -/
def writeList (s : PpuState) (port : Nat) (ds : List Nat) : PpuState :=
  ds.foldl (fun t d => ppu_write t port d) s

/-- All-zero PPU state, used as the concrete state of the witnesses. -/
def ppu0 : PpuState := PpuState.mk (fun _ => 0) (fun _ => 0) (fun _ => 0) 0

/-! ### Structural lemmas about the windowed ports -/

lemma reg8_lt (s : PpuState) (a : Nat) : reg8 s a < 256 :=
  Nat.mod_lt _ (by norm_num)

lemma spram_addr_lt (s : PpuState) : spram_addr s < 2048 := by
  unfold spram_addr
  have h1 : reg8 s 0x02 &&& 0x07 ≤ 7 := Nat.and_le_right
  have h2 : (reg8 s 0x02 &&& 0x07) <<< 8 < 2 ^ 11 := by
    rw [Nat.shiftLeft_eq]
    have : (2 : Nat) ^ 8 = 256 := by norm_num
    rw [this]
    omega
  have h3 : reg8 s 0x03 < 2 ^ 11 := lt_of_lt_of_le (reg8_lt s 0x03) (by norm_num)
  have h := Nat.or_lt_two_pow h2 h3
  norm_num at h
  exact h

lemma vram_addr_lt (s : PpuState) : vram_addr s < 8192 := by
  unfold vram_addr
  have h1 : reg8 s 0x06 &&& 0x1F ≤ 31 := Nat.and_le_right
  have h2 : (reg8 s 0x06 &&& 0x1F) <<< 8 < 2 ^ 13 := by
    rw [Nat.shiftLeft_eq]
    have : (2 : Nat) ^ 8 = 256 := by norm_num
    rw [this]
    omega
  have h3 : reg8 s 0x05 < 2 ^ 13 := lt_of_lt_of_le (reg8_lt s 0x05) (by norm_num)
  have h := Nat.or_lt_two_pow h2 h3
  norm_num at h
  exact h

lemma recompose13 (x : Nat) : (((x >>> 8) &&& 0x1F) <<< 8) ||| (x &&& 0xFF) = x % 8192 := by
  have h1 : x >>> 8 = x / 256 := by
    rw [Nat.shiftRight_eq_div_pow]
  have h2 : x &&& 0xFF = x % 256 := and_255 x
  have h3 : (x / 256) &&& 0x1F = x / 256 % 32 := and_31 (x / 256)
  rw [h1, h2, h3, shl_or_eq_add]
  · have : (2 : Nat) ^ 8 = 256 := by norm_num
    rw [this]
    omega
  · have : (2 : Nat) ^ 8 = 256 := by norm_num
    rw [this]
    exact Nat.mod_lt _ (by norm_num)

/-- State effect of one VRAM data-port write: the byte lands at the windowed
address, the address registers take the incremented address, SPRAM is
untouched, and the recomposed window address is the 13-bit wrap of the
incremented address. -/
lemma ppu_write7_step (s : PpuState) (d : Nat) :
    (ppu_write s 0x07 d).vram = updf s.vram (vram_addr s) (d % 256)
    ∧ (ppu_write s 0x07 d).regs 0x05 = (vram_addr s + 1) &&& 0xFF
    ∧ (ppu_write s 0x07 d).regs 0x06 = ((vram_addr s + 1) >>> 8) &&& 0x1F
    ∧ (ppu_write s 0x07 d).spram = s.spram
    ∧ vram_addr (ppu_write s 0x07 d) = (vram_addr s + 1) % 8192 := by
  refine ⟨rfl, by simp [ppu_write, updf], by simp [ppu_write, updf], rfl, ?_⟩
  have hv6 : reg8 (ppu_write s 0x07 d) 0x06 = ((vram_addr s + 1) >>> 8) &&& 0x1F := by
    have hb : ((vram_addr s + 1) >>> 8) &&& 0x1F ≤ 31 := Nat.and_le_right
    simp only [reg8]
    rw [show (ppu_write s 0x07 d).regs 0x06 = ((vram_addr s + 1) >>> 8) &&& 0x1F from
      by simp [ppu_write, updf]]
    omega
  have hv5 : reg8 (ppu_write s 0x07 d) 0x05 = (vram_addr s + 1) &&& 0xFF := by
    have hb : (vram_addr s + 1) &&& 0xFF = (vram_addr s + 1) % 256 := and_255 _
    simp only [reg8]
    rw [show (ppu_write s 0x07 d).regs 0x05 = (vram_addr s + 1) &&& 0xFF from
      by simp [ppu_write, updf]]
    omega
  unfold vram_addr
  rw [hv5, hv6, Nat.and_assoc]
  have h31 : (0x1F : Nat) &&& 0x1F = 0x1F := by decide
  rw [h31]
  exact recompose13 (vram_addr s + 1)

/-! ### Claim theorems -/

/-- Claim C1.  The claim states that blend_argb1555 returns the other
operand when one operand is transparent and otherwise the floor of the
per-channel mean of the two 5-bit channels.  The source instead masks the
green channel of b with 0x1 and reads the blue channels at bits 15:11 while
placing the result at bits 14:10, so on the solid pair a = b = 0x7FFF the
per-channel mean would be 0x7FFF but the source computes 0x3E1F (red 31,
green (31 + 1) / 2 = 16, blue (15 + 15) / 2 = 15). -/
theorem blend_argb1555_channel_bug :
    blend_argb1555 0x7FFF 0x7FFF = 0x3E1F ∧ blend_argb1555 0x7FFF 0x7FFF ≠ 0x7FFF := by
  constructor <;> decide

/-- Claim C2, counterexample.  The claim says the vector spacing of
get_char_data is 16*16 texels scaled by bpp/8, hence 512 bytes, for the
ARGB1555 format, so the fetch base at segment 0, vector 1 would be 512; the
source multiplies the 16-bpp case by 8 instead of by bpp, giving base 256. -/
theorem char_spacing_argb1555_counterexample :
    char_pa 0 1 16 16 ColourMode.ARGB1555 false = 256
    ∧ (0 <<< 13) + 1 * (16 * 16 * bpp ColourMode.ARGB1555 / 8) = 512 := by
  constructor <;> decide

/-- Claim C2, amended.  get_char_data reads w * h * bpp / 8 consecutive
bytes starting at (segment << 13) + vector * spacing, where the spacing is
16*16 texels scaled by bpp/8 in bitmap mode with an indexed format, 256
bytes (16*16 texels scaled by one byte per texel) whenever the format is
ARGB1555, and w * h texels scaled by bpp/8 otherwise. -/
theorem get_char_data_amended (mem : Nat → Nat) (seg vector w h : Nat)
    (fmt : ColourMode) (bmp : Bool) :
    get_char_data mem seg vector w h fmt bmp
      = (List.range (w * h * bpp fmt / 8)).map
          (fun i => mem ((seg <<< 13) + vector * char_spacing_amended fmt bmp w h + i) % 256) := by
  have hs : char_spacing fmt bmp w h = char_spacing_amended fmt bmp w h := by
    cases fmt <;> cases bmp <;> simp [char_spacing, char_spacing_amended, bpp]
  simp [get_char_data, char_len, char_pa, hs]

/-- Claim C3.  The claim says that with an indexed format and a null pal0
every nonzero-index texel leaves the low 16 bits of its destination cell
unchanged.  On that path the source reads the uninitialized argb0 and, when
its bit 15 happens to be clear, stores it into the low half: with a one-texel
IDX_256 blit of index 1, no palettes, destination cell 0xABCD1234 and
uninitialized sample content (0, 0x8000), the low half is clobbered to 0. -/
theorem vt_blit_missing_pal0_clobbers :
    (vt_blit 1 1 (fun _ => 1) 1 1 1 0 0 (fun _ => 0xABCD1234)
        ColourMode.IDX_256 none none (fun _ _ => (0, 0x8000))).dst 0 = 0xABCD0000
    ∧ (0xABCD0000 : Nat) &&& 0xFFFF ≠ (0xABCD1234 : Nat) &&& 0xFFFF := by
  constructor <;> decide

lemma sr8_and31 (x : Nat) : (x >>> 8) &&& 0x1F = x / 256 % 32 := by
  have h1 : x >>> 8 = x / 256 := by
    rw [Nat.shiftRight_eq_div_pow]
  rw [h1, and_31]

lemma spram_round_eq (a1 : Nat) (h : a1 < 65536) :
    (if a1 &&& 0x07 ≥ 6 then (a1 &&& 0xFFF8) + 8 else a1)
      = if a1 % 8 ≥ 6 then (a1 / 8 + 1) * 8 else a1 := by
  rw [and_7, and_fff8 a1 h]
  rcases Nat.lt_or_ge (a1 % 8) 6 with h6 | h6
  · rw [if_neg (by omega), if_neg (by omega)]
  · rw [if_pos h6, if_pos h6]
    omega

/-- Cumulative effect of a list of VRAM data-port writes, by induction over
the list: the window address advances mod 2^13, untouched cells keep their
bytes, each datum not later overwritten lands at the wrapped address, and
after at least one write the address registers hold the advanced address
exactly. -/
lemma writeList_vram (ds : List Nat) : ∀ (s : PpuState),
    vram_addr (writeList s 0x07 ds) = (vram_addr s + ds.length) % 8192
    ∧ (∀ j, (∀ i, i < ds.length → (vram_addr s + i) % 8192 ≠ j) →
        (writeList s 0x07 ds).vram j = s.vram j)
    ∧ (∀ i (hi : i < ds.length), ds.length ≤ i + 8192 →
        (writeList s 0x07 ds).vram ((vram_addr s + i) % 8192) = ds.get ⟨i, hi⟩ % 256)
    ∧ (ds ≠ [] →
        (writeList s 0x07 ds).regs 0x05 = (vram_addr s + ds.length) &&& 0xFF
        ∧ (writeList s 0x07 ds).regs 0x06 = ((vram_addr s + ds.length) >>> 8) &&& 0x1F) := by
  induction ds with
  | nil =>
      intro s
      refine ⟨?_, ?_, ?_, ?_⟩
      · show vram_addr s = (vram_addr s + 0) % 8192
        have := vram_addr_lt s
        omega
      · intro j _
        rfl
      · intro i hi
        exact absurd hi (by simp)
      · intro h
        exact absurd rfl h
  | cons d ds ih =>
      intro s
      have hstep := ppu_write7_step s d
      have hA := vram_addr_lt s
      have hw : writeList s 0x07 (d :: ds) = writeList (ppu_write s 0x07 d) 0x07 ds := rfl
      have hA1 : vram_addr (ppu_write s 0x07 d) = (vram_addr s + 1) % 8192 :=
        hstep.2.2.2.2
      obtain ⟨ih1, ih2, ih3, ih4⟩ := ih (ppu_write s 0x07 d)
      refine ⟨?_, ?_, ?_, ?_⟩
      · rw [hw, ih1, hA1]
        simp only [List.length_cons]
        omega
      · intro j hj
        rw [hw, ih2 j ?_]
        · rw [hstep.1]
          have hne : j ≠ vram_addr s := by
            have h0 := hj 0 (by simp)
            omega
          simp [updf, hne]
        · intro i hi
          have hne := hj (i + 1) (by simp; omega)
          rw [hA1]
          omega
      · intro i hi hlast
        simp only [List.length_cons] at hi hlast
        match i with
        | 0 =>
            have e0 : (vram_addr s + 0) % 8192 = vram_addr s := by omega
            rw [hw, e0, ih2 (vram_addr s) ?_]
            · rw [hstep.1]
              simp [updf]
            · intro k hk
              rw [hA1]
              omega
        | Nat.succ i =>
            have hi2 : i < ds.length := by omega
            have hlast2 : ds.length ≤ i + 8192 := by omega
            have hidx : (vram_addr (ppu_write s 0x07 d) + i) % 8192
                = (vram_addr s + (i + 1)) % 8192 := by
              rw [hA1]
              omega
            have h3 := ih3 i hi2 hlast2
            rw [hidx] at h3
            rw [hw, h3]
            simp
      · intro _
        match ds with
        | [] =>
            refine ⟨?_, ?_⟩
            · show (ppu_write s 0x07 d).regs 0x05 = (vram_addr s + 1) &&& 0xFF
              exact hstep.2.1
            · show (ppu_write s 0x07 d).regs 0x06 = ((vram_addr s + 1) >>> 8) &&& 0x1F
              exact hstep.2.2.1
        | e :: es =>
            obtain ⟨r5, r6⟩ := ih4 (by simp)
            refine ⟨?_, ?_⟩
            · rw [hw, r5, and_255, and_255, hA1]
              simp only [List.length_cons]
              omega
            · rw [hw, r6, sr8_and31, sr8_and31, hA1]
              simp only [List.length_cons]
              omega

/-- Setting the VRAM window registers to the decomposition of an in-range
address and then reading the data port returns the VRAM byte at that
address; the read itself does not change any state because the source
ppu_read mutates nothing. -/
lemma set_window_read (s : PpuState) (x : Nat) (hx : x < 8192) :
    ppu_read (ppu_write (ppu_write s 0x06 (x >>> 8)) 0x05 (x % 256)) 0x07
      = s.vram x := by
  have hx8 : x >>> 8 = x / 256 := by
    rw [Nat.shiftRight_eq_div_pow]
  have hdiv : x / 256 < 32 := by omega
  have hreg6 : reg8 (ppu_write (ppu_write s 0x06 (x >>> 8)) 0x05 (x % 256)) 0x06
      = x / 256 := by
    simp [ppu_write, reg8, updf, hx8]
    omega
  have hreg5 : reg8 (ppu_write (ppu_write s 0x06 (x >>> 8)) 0x05 (x % 256)) 0x05
      = x % 256 := by
    simp [ppu_write, reg8, updf]
  have haddr : vram_addr (ppu_write (ppu_write s 0x06 (x >>> 8)) 0x05 (x % 256)) = x := by
    unfold vram_addr
    rw [hreg5, hreg6, and_31, Nat.mod_eq_of_lt hdiv, shl_or_eq_add]
    · have h8 : (2 : Nat) ^ 8 = 256 := by norm_num
      rw [h8]
      omega
    · have h8 : (2 : Nat) ^ 8 = 256 := by norm_num
      rw [h8]
      exact Nat.mod_lt _ (by norm_num)
  show (ppu_write (ppu_write s 0x06 (x >>> 8)) 0x05 (x % 256)).vram
      (vram_addr (ppu_write (ppu_write s 0x06 (x >>> 8)) 0x05 (x % 256))) = s.vram x
  rw [haddr]
  rfl

/-- Claim C4.  Starting from any state whose VRAM window address is A, a
sequence of N byte writes to the data port 0x07 stores byte i at
vram[(A + i) mod 2^13] (for every i not overwritten later, in particular
whenever N is at most i + 2^13); afterwards register 0x05 holds
(A + N) & 0xFF and register 0x06 holds ((A + N) >> 8) & 0x1F; and setting
the window registers to the decomposition of (A + i) mod 2^13 and reading
the data port returns byte i, the read not incrementing anything because
ppu_read mutates no state. -/
theorem vram_port_sequence (s : PpuState) (ds : List Nat) (i : Nat)
    (hi : i < ds.length) (hlast : ds.length ≤ i + 8192)
    (hbytes : ∀ b ∈ ds, b < 256) :
    (writeList s 0x07 ds).vram ((vram_addr s + i) % 8192) = ds.get ⟨i, hi⟩
    ∧ (writeList s 0x07 ds).regs 0x05 = (vram_addr s + ds.length) &&& 0xFF
    ∧ (writeList s 0x07 ds).regs 0x06 = ((vram_addr s + ds.length) >>> 8) &&& 0x1F
    ∧ ppu_read (ppu_write (ppu_write (writeList s 0x07 ds) 0x06
          (((vram_addr s + i) % 8192) >>> 8)) 0x05 ((vram_addr s + i) % 256)) 0x07
        = ds.get ⟨i, hi⟩ := by
  obtain ⟨h1, h2, h3, h4⟩ := writeList_vram ds s
  have hget : ds.get ⟨i, hi⟩ % 256 = ds.get ⟨i, hi⟩ :=
    Nat.mod_eq_of_lt (hbytes _ (List.get_mem ds i hi))
  have hcontent := h3 i hi hlast
  rw [hget] at hcontent
  have hne : ds ≠ [] := List.ne_nil_of_length_pos (by omega)
  obtain ⟨r5, r6⟩ := h4 hne
  refine ⟨hcontent, r5, r6, ?_⟩
  have hmod : (vram_addr s + i) % 256 = ((vram_addr s + i) % 8192) % 256 := by omega
  rw [hmod, set_window_read _ _ (Nat.mod_lt _ (by norm_num))]
  exact hcontent

/-- Witness for C4 at a concrete instance: two writes 171 then 205 from the
all-zero state put 205 at VRAM address 1. -/
theorem vram_port_sequence_witness :
    (1 < ([171, 205] : List Nat).length)
    ∧ (writeList ppu0 0x07 [171, 205]).vram ((vram_addr ppu0 + 1) % 8192) = 205 :=
  ⟨by decide,
   (vram_port_sequence ppu0 [171, 205] 1 (by decide) (by decide) (by decide)).1⟩

/-- Claim C5.  A SPRAM data-port write stores the byte at the current
window address; the address is incremented and, when the low 3 bits of the
incremented address are at least 6, rounded up to the next multiple of 8;
registers 0x02 and 0x03 then hold the high 3 bits and low 8 bits of the
resulting address. -/
theorem spram_port_autoincrement (s : PpuState) (d : Nat) :
    (ppu_write s 0x04 d).spram = updf s.spram (spram_addr s) (d % 256)
    ∧ (ppu_write s 0x04 d).regs 0x02
        = ((if (spram_addr s + 1) % 8 ≥ 6 then ((spram_addr s + 1) / 8 + 1) * 8
            else spram_addr s + 1) >>> 8) &&& 0x07
    ∧ (ppu_write s 0x04 d).regs 0x03
        = (if (spram_addr s + 1) % 8 ≥ 6 then ((spram_addr s + 1) / 8 + 1) * 8
           else spram_addr s + 1) &&& 0xFF := by
  have hlt : spram_addr s + 1 < 65536 := by
    have := spram_addr_lt s
    omega
  have hround := spram_round_eq (spram_addr s + 1) hlt
  refine ⟨rfl, ?_, ?_⟩
  · rw [← hround]
    simp [ppu_write, updf]
  · rw [← hround]
    simp [ppu_write, updf]

/-- Claim C10.  For every state of the register file the windowed ports
index in bounds: the SPRAM window address (high register masked with 0x07)
is below 2048 and the VRAM window address (high register masked with 0x1F)
is below 8192, and the reads and writes of ports 0x04 and 0x07 access
exactly those addresses. -/
theorem windowed_ports_in_bounds (s : PpuState) (d : Nat) :
    spram_addr s < 2048 ∧ vram_addr s < 8192
    ∧ ppu_read s 0x04 = s.spram (spram_addr s)
    ∧ ppu_read s 0x07 = s.vram (vram_addr s)
    ∧ (ppu_write s 0x04 d).spram = updf s.spram (spram_addr s) (d % 256)
    ∧ (ppu_write s 0x07 d).vram = updf s.vram (vram_addr s) (d % 256) :=
  ⟨spram_addr_lt s, vram_addr_lt s, rfl, rfl, rfl, rfl⟩

/-! ### Blitter transparency lemmas (C3, C6) -/

lemma word16_eq (lo hi : Nat) : word16 lo hi = (hi % 256) * 256 + lo % 256 := by
  unfold word16
  rw [shl_or_eq_add]
  · norm_num
  · have h8 : (2 : Nat) ^ 8 = 256 := by norm_num
    rw [h8]
    exact Nat.mod_lt _ (by norm_num)

lemma word16_lt (lo hi : Nat) : word16 lo hi < 65536 := by
  rw [word16_eq]
  have h1 : hi % 256 < 256 := Nat.mod_lt _ (by norm_num)
  have h2 : lo % 256 < 256 := Nat.mod_lt _ (by norm_num)
  omega

lemma pal_sample_lt (f : Nat → Nat) (raw : Nat) : pal_sample f raw < 65536 :=
  word16_lt _ _

/-- Both samples computed for a texel fit in 16 bits, as the uint16_t
variables of the source do. -/
lemma blit_samples_lt (fmt : ColourMode) (src : Nat → Nat)
    (pal0 pal1 : Option (Nat → Nat)) (j0 j1 p bit : Nat) :
    (blit_samples fmt src pal0 pal1 j0 j1 p bit).1 < 65536
    ∧ (blit_samples fmt src pal0 pal1 j0 j1 p bit).2.1 < 65536 := by
  unfold blit_samples
  by_cases hf : fmt = ColourMode.ARGB1555
  · simp only [if_pos hf]
    exact ⟨word16_lt _ _, word16_lt _ _⟩
  · simp only [if_neg hf]
    by_cases h0 : (decode_idx fmt src p bit).1 = 0
    · simp only [if_pos h0]
      exact ⟨by norm_num, by norm_num⟩
    · simp only [if_neg h0]
      constructor
      · cases pal0 with
        | none => exact Nat.mod_lt _ (by norm_num)
        | some f => exact pal_sample_lt f _
      · cases pal1 with
        | none => exact Nat.mod_lt _ (by norm_num)
        | some f => exact pal_sample_lt f _

lemma and_ffff_idem (x : Nat) : (x &&& 0xFFFF) &&& 0xFFFF = x &&& 0xFFFF := by
  rw [Nat.and_assoc, Nat.and_self]

lemma and_hi_idem (x : Nat) : (x &&& 0xFFFF0000) &&& 0xFFFF0000 = x &&& 0xFFFF0000 := by
  rw [Nat.and_assoc, Nat.and_self]

lemma or_left_comm (a b c : Nat) : a ||| (b ||| c) = b ||| (a ||| c) := by
  rw [← Nat.or_assoc, Nat.or_comm a b, Nat.or_assoc]

/-- A write whose two samples are both transparent leaves the destination
untouched. -/
lemma blit_write_both_transparent (dst : Int → Nat) (dw dh stride : Nat)
    (dx dy : Int) (a0 a1 : Nat) (h0 : a0 &&& 0x8000 ≠ 0) (h1 : a1 &&& 0x8000 ≠ 0) :
    blit_write dst dw dh stride dx dy a0 a1 = dst := by
  unfold blit_write
  split
  · simp only [if_neg h0, if_neg h1]
    funext c
    split
    · rename_i hc
      rw [hc]
    · rfl
  · rfl

/-- A write whose bank-0 sample is transparent preserves the low 16 bits of
every destination cell. -/
lemma blit_write_lo_preserved (dst : Int → Nat) (dw dh stride : Nat)
    (dx dy : Int) (a0 a1 : Nat) (h0 : a0 &&& 0x8000 ≠ 0) (c : Int) :
    blit_write dst dw dh stride dx dy a0 a1 c &&& 0xFFFF = dst c &&& 0xFFFF := by
  unfold blit_write
  split
  · simp only [if_neg h0]
    split
    · rename_i hc
      split
      · rw [hc, Nat.and_distrib_right, and_ffff_idem, shl16_and_lo_eq_zero, Nat.or_zero]
      · rw [hc]
    · rfl
  · rfl

/-- A write whose bank-1 sample is transparent preserves the high 16 bits of
every destination cell, given that the bank-0 sample fits in 16 bits. -/
lemma blit_write_hi_preserved (dst : Int → Nat) (dw dh stride : Nat)
    (dx dy : Int) (a0 a1 : Nat) (h1 : a1 &&& 0x8000 ≠ 0) (ha0 : a0 < 65536) (c : Int) :
    blit_write dst dw dh stride dx dy a0 a1 c &&& 0xFFFF0000 = dst c &&& 0xFFFF0000 := by
  unfold blit_write
  split
  · simp only [if_neg h1]
    split
    · rename_i hc
      split
      · rw [hc, Nat.and_distrib_right, and_hi_idem, and_hi16_eq_zero ha0, Nat.or_zero]
      · rw [hc]
    · rfl
  · rfl

/-- Claim C6.  In an indexed format, a texel that decodes to index 0 leaves
its destination cell completely unchanged whatever the palettes, because
both samples become the transparent 0x8000; and more generally a computed
sample with bit 15 set leaves the 16-bit half of the destination belonging
to its palette bank unchanged in every cell. -/
theorem vt_blit_transparent_preserves (fmt : ColourMode) (src : Nat → Nat)
    (pal0 pal1 : Option (Nat → Nat)) (dw dh stride : Nat) (dx dy : Int)
    (j0 j1 : Nat) (st : BlitState) (hfmt : fmt ≠ ColourMode.ARGB1555) :
    ((decode_idx fmt src st.p st.bit).1 = 0 →
        (blit_texel fmt src pal0 pal1 dw dh stride dx dy j0 j1 st).dst = st.dst)
    ∧ ((blit_samples fmt src pal0 pal1 j0 j1 st.p st.bit).1 &&& 0x8000 ≠ 0 →
        ∀ c, (blit_texel fmt src pal0 pal1 dw dh stride dx dy j0 j1 st).dst c &&& 0xFFFF
          = st.dst c &&& 0xFFFF)
    ∧ ((blit_samples fmt src pal0 pal1 j0 j1 st.p st.bit).2.1 &&& 0x8000 ≠ 0 →
        ∀ c, (blit_texel fmt src pal0 pal1 dw dh stride dx dy j0 j1 st).dst c &&& 0xFFFF0000
          = st.dst c &&& 0xFFFF0000) := by
  refine ⟨?_, ?_, ?_⟩
  · intro h0
    have hq1 : (blit_samples fmt src pal0 pal1 j0 j1 st.p st.bit).1 = 0x8000 := by
      unfold blit_samples
      rw [if_neg hfmt]
      simp [h0]
    have hq2 : (blit_samples fmt src pal0 pal1 j0 j1 st.p st.bit).2.1 = 0x8000 := by
      unfold blit_samples
      rw [if_neg hfmt]
      simp [h0]
    show blit_write st.dst dw dh stride dx dy
        (blit_samples fmt src pal0 pal1 j0 j1 st.p st.bit).1
        (blit_samples fmt src pal0 pal1 j0 j1 st.p st.bit).2.1 = st.dst
    rw [hq1, hq2]
    exact blit_write_both_transparent _ _ _ _ _ _ _ _ (by decide) (by decide)
  · intro h0 c
    exact blit_write_lo_preserved _ _ _ _ _ _ _ _ h0 c
  · intro h1 c
    exact blit_write_hi_preserved _ _ _ _ _ _ _ _ h1
      ((blit_samples_lt fmt src pal0 pal1 j0 j1 st.p st.bit).1) c

/-- Concrete blit state for the C6 witness. -/
def st0 : BlitState := BlitState.mk 0 0 (fun _ => 5)

/-- Witness for C6: an IDX_16 texel reading byte 0 decodes to index 0 and
leaves the destination function unchanged. -/
theorem vt_blit_transparent_preserves_witness :
    (decode_idx ColourMode.IDX_16 (fun _ => 0) 0 0).1 = 0
    ∧ (blit_texel ColourMode.IDX_16 (fun _ => 0) none none 1 1 1 0 0 0 0 st0).dst = st0.dst :=
  ⟨by decide,
   (vt_blit_transparent_preserves ColourMode.IDX_16 (fun _ => 0) none none
      1 1 1 0 0 0 0 st0 (by decide)).1 (by decide)⟩

/-- Claim C7.  get_tile_addr agrees with the section 4.4 tables of the
specification for 8-pixel tiles (H and V page selection by (t > 32) xor the
page bit, FIX base 0x000 only at page (0,0), 4P unsupported) and for
16-pixel tiles (every base ORs layer << 11, page bits 0x200 and 0x400
selected by (t > 16) xor the page bits, 4P always mapped), with the stated
mapped conditions and offsets. -/
theorem get_tile_addr_matches_spec (tx ty : Nat) (y8 x8 : Bool) (bmp : Bool)
    (layer : Nat) (scrl : BkgScrollMode) :
    get_tile_addr tx ty y8 x8 8 bmp layer scrl = tile_addr_spec8 tx ty y8 x8 scrl
    ∧ get_tile_addr tx ty y8 x8 16 bmp layer scrl
        = tile_addr_spec16 tx ty y8 x8 layer scrl := by
  constructor <;> cases scrl <;> cases x8 <;> cases y8 <;>
    simp [get_tile_addr, tile_addr_spec8, tile_addr_spec16, Nat.or_comm, Nat.or_assoc,
      or_left_comm]

/-- Claim C8.  The layer scan of merge_layers going from layer 3 down to
layer 0 keeps, independently per palette bank, the last solid sample found,
which is the topmost solid sample with layer 0 of highest priority; and the
final colour is pal1 when output_pal1 is set and pal1 is solid, otherwise
pal0 when output_pal0 is set and pal0 is solid, otherwise the blend of the
two when blend_pal, output_pal0 and output_pal1 are all set, otherwise the
transparent 0x8000. -/
theorem merge_layers_pixel_spec (cells : Nat → Nat) (op0 op1 bp : Bool) :
    merge_scan cells = (top_solid0 cells, top_solid1 cells)
    ∧ merge_layers_pixel cells op0 op1 bp
        = merge_res_spec (top_solid0 cells) (top_solid1 cells) op0 op1 bp :=
  ⟨rfl, rfl⟩

/-- Claim C9.  Starting from ticks = 0, the k-th call of ppu_tick leaves
ticks = k for every k below v_total, hence no call before the v_total-th
resets the counter, the v_total-th call resets it to 0, and ppu_is_vblank
holds exactly on the interval from vblank_start = 0 up to but excluding
vblank_len = 22036, with v_total = 106392. -/
theorem ppu_tick_wrap_vblank :
    (∀ k, k < v_total → ppu_tick^[k] 0 = k)
    ∧ ppu_tick^[v_total] 0 = 0
    ∧ (∀ k, 1 ≤ k → k < v_total → ppu_tick^[k] 0 ≠ 0)
    ∧ (∀ t, ppu_is_vblank t = true ↔ vblank_start ≤ t ∧ t < vblank_len)
    ∧ vblank_start = 0 ∧ vblank_len = 22036 ∧ v_total = 106392 := by
  have hstep : ∀ k, k < v_total → ppu_tick^[k] 0 = k := by
    intro k
    induction k with
    | zero => intro _; rfl
    | succ n ihn =>
        intro hk
        rw [Function.iterate_succ_apply', ihn (by omega)]
        unfold ppu_tick
        rw [if_neg (by omega)]
  refine ⟨hstep, ?_, ?_, ?_, rfl, rfl, rfl⟩
  · have hv : v_total = 106391 + 1 := rfl
    rw [hv, Function.iterate_succ_apply', hstep 106391 (by decide)]
    decide
  · intro k hk1 hk2
    rw [hstep k hk2]
    omega
  · intro t
    simp [ppu_is_vblank]

/-- Witness for C9: the fifth call leaves ticks = 5, and a tick count of 21
is inside the VBLANK window. -/
theorem ppu_tick_wrap_vblank_witness :
    ((5 : Nat) < v_total ∧ ppu_tick^[5] 0 = 5)
    ∧ (1 ≤ 3 ∧ (3 : Nat) < v_total ∧ ppu_tick^[3] 0 ≠ 0) :=
  ⟨⟨by decide, ppu_tick_wrap_vblank.1 5 (by decide)⟩,
   by decide, by decide, ppu_tick_wrap_vblank.2.2.1 3 (by decide) (by decide)⟩

end VTxx
